import Mathlib

/-!
Shallow embedding of the Conversation Engine of `src/sv.py` (Flask chatbot
`UltraFastChatBot` plus its API routes).  Python strings are modelled over
their character lists; wall-clock instants are natural numbers (seconds),
threaded explicitly through every operation; the external Generation Backend
and Durable Store are parameters (`Option`-valued outcomes).  Python's
`int(m * 0.8)` and `int(m * 0.6)` agree with the natural-number divisions
`4 * m / 5` and `3 * m / 5` for every `m ≤ 100000` (checked exhaustively for
CPython doubles), so those divisions embed the float thresholds faithfully.
-/

/-- `role` field of a message dict in `sv.py` ("system" / "user" / "assistant"). -/
inductive Role
  | system
  | user
  | assistant
deriving DecidableEq, Repr

/-- One element of `self.messages`: `{"role":..., "content":..., "timestamp":...}`.
The timestamp string produced by `_now_ts` is modelled by the numeric instant
it renders (timestamp-string formatting is out of scope). -/
structure Turn where
  role : Role
  content : String
  timestamp : Nat
deriving DecidableEq, Repr

/-- State of the `UltraFastChatBot` singleton: `self.messages`,
`self.max_messages`, `self._last_save_time`, `self._save_interval`. -/
structure BotState where
  messages : List Turn
  maxMessages : Nat
  lastSaveTime : Nat
  saveInterval : Nat
deriving DecidableEq, Repr

/-- Python ASCII whitespace stripped by `str.strip()`. -/
def isPyWS (c : Char) : Bool :=
  c == ' ' || c == '\t' || c == '\n' || c == '\r' || c == '\x0b' || c == '\x0c'

/-- `str.strip()` (whitespace on both ends; modelled for ASCII whitespace). -/
def pyStrip (s : String) : String :=
  String.mk (((s.data.dropWhile isPyWS).reverse.dropWhile isPyWS).reverse)

/-- CPython `str.lower()` case mappings for every precomposed accented
capital of the Vietnamese alphabet (each pair checked against CPython). -/
def viLowerPairs : List (Char × Char) :=
  [('À', 'à'), ('Á', 'á'), ('Ả', 'ả'), ('Ã', 'ã'), ('Ạ', 'ạ'), ('Ă', 'ă'),
   ('Ằ', 'ằ'), ('Ắ', 'ắ'), ('Ẳ', 'ẳ'), ('Ẵ', 'ẵ'), ('Ặ', 'ặ'), ('Â', 'â'),
   ('Ầ', 'ầ'), ('Ấ', 'ấ'), ('Ẩ', 'ẩ'), ('Ẫ', 'ẫ'), ('Ậ', 'ậ'), ('Đ', 'đ'),
   ('È', 'è'), ('É', 'é'), ('Ẻ', 'ẻ'), ('Ẽ', 'ẽ'), ('Ẹ', 'ẹ'), ('Ê', 'ê'),
   ('Ề', 'ề'), ('Ế', 'ế'), ('Ể', 'ể'), ('Ễ', 'ễ'), ('Ệ', 'ệ'), ('Ì', 'ì'),
   ('Í', 'í'), ('Ỉ', 'ỉ'), ('Ĩ', 'ĩ'), ('Ị', 'ị'), ('Ò', 'ò'), ('Ó', 'ó'),
   ('Ỏ', 'ỏ'), ('Õ', 'õ'), ('Ọ', 'ọ'), ('Ô', 'ô'), ('Ồ', 'ồ'), ('Ố', 'ố'),
   ('Ổ', 'ổ'), ('Ỗ', 'ỗ'), ('Ộ', 'ộ'), ('Ơ', 'ơ'), ('Ờ', 'ờ'), ('Ớ', 'ớ'),
   ('Ở', 'ở'), ('Ỡ', 'ỡ'), ('Ợ', 'ợ'), ('Ù', 'ù'), ('Ú', 'ú'), ('Ủ', 'ủ'),
   ('Ũ', 'ũ'), ('Ụ', 'ụ'), ('Ư', 'ư'), ('Ừ', 'ừ'), ('Ứ', 'ứ'), ('Ử', 'ử'),
   ('Ữ', 'ữ'), ('Ự', 'ự'), ('Ỳ', 'ỳ'), ('Ý', 'ý'), ('Ỷ', 'ỷ'), ('Ỹ', 'ỹ'),
   ('Ỵ', 'ỵ')]

/-- `str.lower()` on one character, faithful for the whole alphabet the
engine compares: ASCII letters plus every precomposed accented Vietnamese
capital (so uppercase time queries such as "GIỜ" or "NGÀY" lower exactly as
CPython lowers them). -/
def pyLowerChar (c : Char) : Char :=
  if 'A' ≤ c ∧ c ≤ 'Z' then Char.ofNat (c.toNat + 32)
  else
    match viLowerPairs.find? (fun p => p.1 == c) with
    | some p => p.2
    | none => c

/-- `str.lower()` (modelled character-wise via `pyLowerChar`). -/
def pyLower (s : String) : String :=
  String.mk (s.data.map pyLowerChar)

/-- `s[:n]` on a Python string. -/
def pyTake (n : Nat) (s : String) : String :=
  String.mk (s.data.take n)

/-- `l[-n:]` on a Python list: for `n = 0` this is the whole list
(`l[-0:] = l[0:]`), otherwise the last `n` elements. -/
def pyNegSlice {α : Type} (n : Nat) (l : List α) : List α :=
  if n = 0 then l else l.drop (l.length - n)

/-- Whether `p` is a prefix of `s` (character lists). -/
def isPrefixL : List Char → List Char → Bool
  | [], _ => true
  | _ :: _, [] => false
  | a :: as, b :: bs => a == b && isPrefixL as bs

/-- Whether `sub` occurs as a contiguous substring of `s` (character lists). -/
def containsSubL (sub : List Char) : List Char → Bool
  | [] => isPrefixL sub []
  | s@(_ :: rest) => isPrefixL sub s || containsSubL sub rest

/-- Python `sub in s` on strings. -/
def containsSub (s sub : String) : Bool :=
  containsSubL sub.data s.data

/-- Decimal digit character. -/
def digitChar (n : Nat) : Char :=
  if n = 0 then '0' else if n = 1 then '1' else if n = 2 then '2'
  else if n = 3 then '3' else if n = 4 then '4' else if n = 5 then '5'
  else if n = 6 then '6' else if n = 7 then '7' else if n = 8 then '8' else '9'

/-- Fuel-bounded decimal rendering (structural, so it reduces in the kernel). -/
def natToStrAux : Nat → Nat → List Char
  | 0, _ => []
  | _ + 1, 0 => []
  | fuel + 1, n => natToStrAux fuel (n / 10) ++ [digitChar (n % 10)]

/-- Decimal rendering of a natural number. -/
def natToStr (n : Nat) : String :=
  if n = 0 then "0" else String.mk (natToStrAux (n + 1) n)

/-- Rendering of the wall-clock instant used inside `full_datetime`
(`_get_vietnam_time_info`); calendar formatting is out of scope per the
spec, so the instant is rendered by its numeric value. -/
def fullDatetime (now : Nat) : String := natToStr now

/-- `time_info['location']` — fixed string in `_get_vietnam_time_info`. -/
def locationStr : String := "Khánh Hòa, Việt Nam"

/-- Reply of the time shortcut:
`f"Hiện tại là {time_info['full_datetime']} tại {time_info['location']}."`. -/
def timeReplyStr (now : Nat) : String :=
  "Hiện tại là " ++ fullDatetime now ++ " tại " ++ locationStr ++ "."

/-- Content of the refreshed system turn in `add_system_with_time`. -/
def systemContent (now : Nat) : String :=
  "Bạn là trợ lý AI tại " ++ locationStr ++ ". Thời gian hiện tại: "
    ++ fullDatetime now ++ "."

/-- Fixed confirmation reply of the clear command. -/
def clearReply : String := "Đã xóa lịch sử chat."

/-- Generic "system busy" reply returned by the facade's exception handler. -/
def busyReply : String := "Hệ thống đang bận, vui lòng thử lại sau ít phút."

/-- Reserved clear tokens, `("clear","/clear","xóa","xoa")` in `api_chat`
and `_generate_quick_reply`. -/
def clearTokens : List String := ["clear", "/clear", "xóa", "xoa"]

/-- Time keywords of the `api_chat` shortcut (line 400). -/
def apiTimeKeywords : List String :=
  ["giờ", "thời gian", "ngày", "tháng", "năm", "bây giờ", "hiện tại"]

/-- Time keywords of `_generate_quick_reply` (line 263). -/
def quickTimeKeywords : List String :=
  ["giờ", "thời gian", "bây giờ", "hiện tại", "mấy giờ"]

/-- `MAX_INPUT_MESSAGES` (default 3). -/
def MAX_INPUT_MESSAGES : Nat := 3

/-- `UltraFastChatBot._trim_messages`: when the transcript exceeds
`max_messages`, keep every system turn followed by
`messages_without_system[-int(max_messages*0.6):]`. -/
def trim_messages (m : Nat) (msgs : List Turn) : List Turn :=
  if msgs.length > m then
    msgs.filter (fun t => t.role == Role.system)
      ++ pyNegSlice (3 * m / 5) (msgs.filter (fun t => t.role != Role.system))
  else msgs

/-- `UltraFastChatBot.add_system_with_time`: drop every system turn and
insert a fresh system turn (current time) at position 0. -/
def add_system_with_time (now : Nat) (msgs : List Turn) : List Turn :=
  ⟨Role.system, systemContent now, now⟩ :: msgs.filter (fun t => t.role != Role.system)

/-- Guarded system refresh at the top of `get_response_ultra_fast` (line 285):
refresh when no system turn exists or `len(messages) % 5 == 0`. -/
def ensureSystem (now : Nat) (msgs : List Turn) : List Turn :=
  if !(msgs.any (fun t => t.role == Role.system)) || msgs.length % 5 == 0 then
    add_system_with_time now msgs
  else msgs

/-- `UltraFastChatBot._build_minimal_payload`: system turns, then the last
`MAX_INPUT_MESSAGES` user/assistant turns, then the new user turn
(roles and contents only — the ephemeral Prompt Payload). -/
def build_minimal_payload (userInput : String) (msgs : List Turn) : List (Role × String) :=
  let systemMsgs := (msgs.filter (fun t => t.role == Role.system)).map (fun t => (t.role, t.content))
  let nonSystem := (msgs.filter
      (fun t => t.role == Role.user || t.role == Role.assistant)).map (fun t => (t.role, t.content))
  let recent := if nonSystem.isEmpty then [] else pyNegSlice MAX_INPUT_MESSAGES nonSystem
  systemMsgs ++ recent ++ [(Role.user, userInput)]

/-- `UltraFastChatBot.clear_history` (in-memory part): wipe the transcript.
The best-effort DELETE to the Durable Store is recorded by the caller as a
`remoteClearRequested` effect flag. -/
def clear_history (b : BotState) : BotState :=
  { b with messages := [] }

/-- `next((m for m in reversed(messages) if role == "assistant"), None)`. -/
def lastAssistant (msgs : List Turn) : Option Turn :=
  msgs.reverse.find? (fun t => t.role == Role.assistant)

/-- Quick-reply built from the last assistant turn (line 276). -/
def quickFromLast (userInput snippet : String) : String :=
  "Mình nhận được câu hỏi của bạn: \"" ++ userInput
    ++ "\". Dựa trên phản hồi trước đây, tóm tắt nhanh: " ++ pyTake 500 snippet

/-- Default fallback reply (lines 278-279). -/
def defaultQuickReply (userInput : String) : String :=
  "Mình đã nhận câu hỏi của bạn: \"" ++ pyTake 800 userInput
    ++ "\". Hiện tại dịch vụ trả lời đang chậm hoặc không liên lạc được với mô-đun LLM ngoài. "
    ++ "Tạm thời mình trả lời ngắn gọn và sẽ lưu câu hỏi để xử lý kỹ hơn sau."

/-- `UltraFastChatBot._generate_quick_reply`: the locally computed fallback.
Returns the reply, the (possibly cleared) bot, and whether a remote clear
was requested (the clear branch calls `clear_history`). -/
def generate_quick_reply (now : Nat) (userInput : String) (b : BotState) :
    String × BotState × Bool :=
  let l := pyLower userInput
  if quickTimeKeywords.any (fun k => containsSub l k) then
    (timeReplyStr now, b, false)
  else if clearTokens.contains (pyStrip l) then
    (clearReply, clear_history b, true)
  else
    match lastAssistant b.messages with
    | some t => (quickFromLast userInput t.content, b, false)
    | none => (defaultQuickReply userInput, b, false)

/-- The append-then-opportunistic-trim step shared by the reply paths of
`get_response_ultra_fast` (lines 340-344) and `background_fill`
(lines 320-325): append the exchange, then call `_trim_messages` when the
length exceeds `int(max_messages * 0.8)`. -/
def appendPairAndTrim (m : Nat) (u a : Turn) (msgs : List Turn) : List Turn :=
  if (msgs ++ [u, a]).length > 4 * m / 5 then trim_messages m (msgs ++ [u, a])
  else msgs ++ [u, a]

/-- Outcome of the bounded backend call as observed by the foreground path:
`ok (some r)` — some backend returned string `r` within the deadline;
`ok none` — every backend failed, returned `None`, or the deadline elapsed
(all collapse to `llm_reply = None` in lines 292-305); `crash` — an
unexpected internal exception reached the outer `except` (lines 358-366),
modelled as raised before the history mutation. -/
inductive PipelineEvent
  | ok (llm : Option String)
  | crash
deriving DecidableEq, Repr

/-- Result of one handled message: the reply, the new bot state, whether a
non-forced `save_history_async` was submitted, and whether a best-effort
remote clear was requested. -/
structure HandleResult where
  reply : String
  bot : BotState
  saveRequested : Bool
  remoteClearRequested : Bool
deriving DecidableEq, Repr

/-- `UltraFastChatBot.get_response_ultra_fast` (foreground path; the
asynchronous `background_fill` and the submitted save run later and are
separate operations of the step relation). -/
def get_response_ultra_fast (now : Nat) (userInput : String)
    (ev : PipelineEvent) (b : BotState) : HandleResult :=
  match ev with
  | .crash =>
      { reply := busyReply
        bot := { b with messages := b.messages ++ [⟨Role.user, userInput, now⟩] }
        saveRequested := true
        remoteClearRequested := false }
  | .ok llm =>
      let msgs1 := ensureSystem now b.messages
      let b1 : BotState := { b with messages := msgs1 }
      let good : Option String :=
        match llm with
        | some r => if r ≠ "" ∧ 2 ≤ (pyStrip r).length then some (pyStrip r) else none
        | none => none
      match good with
      | some reply =>
          let msgs2 := appendPairAndTrim b.maxMessages
            ⟨Role.user, userInput, now⟩ ⟨Role.assistant, reply, now⟩ msgs1
          { reply := reply
            bot := { b1 with messages := msgs2 }
            saveRequested := true
            remoteClearRequested := false }
      | none =>
          let q := generate_quick_reply now userInput b1
          let msgs2 := appendPairAndTrim b.maxMessages
            ⟨Role.user, userInput, now⟩ ⟨Role.assistant, q.1, now⟩ q.2.1.messages
          { reply := q.1
            bot := { q.2.1 with messages := msgs2 }
            saveRequested := true
            remoteClearRequested := q.2.2 }

/-- Result of `save_history_async`: the new bot state, whether the save
attempt proceeded past the debounce, and the snapshot sent to the Durable
Store when it did. -/
structure SaveResult where
  bot : BotState
  attempted : Bool
  payload : Option (List Turn)
deriving DecidableEq, Repr

/-- `UltraFastChatBot.save_history_async` (the body run by the worker):
debounce unless forced; otherwise trim when over the cap, post
`messages[-max_messages:]`, and record the attempt time. -/
def save_history_async (now : Nat) (force : Bool) (b : BotState) : SaveResult :=
  if !force ∧ now - b.lastSaveTime < b.saveInterval then
    { bot := b, attempted := false, payload := none }
  else
    let msgs := if b.messages.length > b.maxMessages then trim_messages b.maxMessages b.messages else b.messages
    { bot := { b with messages := msgs, lastSaveTime := now }
      attempted := true
      payload := some (pyNegSlice b.maxMessages msgs) }

/-- `UltraFastChatBot._load_history_external`: `none` covers every failure
(no store configured, network error, non-200 status, parse failure) and leaves
the bot untouched; `some data` installs `data[-max_messages:]` verbatim. -/
def load_history_external (dataOpt : Option (List Turn)) (b : BotState) : BotState :=
  match dataOpt with
  | none => b
  | some data => { b with messages := pyNegSlice b.maxMessages data }

/-- `background_fill` (lines 314-330): when the asynchronous fuller reply is
acceptable, append the user/assistant pair and run the same opportunistic
trim check; otherwise leave the state unchanged. -/
def background_fill (now : Nat) (fuller : Option String)
    (originalInput : String) (b : BotState) : BotState :=
  match fuller with
  | none => b
  | some f =>
      if f ≠ "" ∧ 1 < (pyStrip f).length then
        let msgs := appendPairAndTrim b.maxMessages
          ⟨Role.user, originalInput, now⟩ ⟨Role.assistant, pyStrip f, now⟩ b.messages
        { b with messages := msgs }
      else b

/-- Outcome of the `api_chat` route: a distinct validation error (HTTP 400)
or a reply string (HTTP 200). -/
inductive ApiOutcome
  | validationError (err : String)
  | reply (s : String)
deriving DecidableEq, Repr

/-- Result of one `api_chat` request. -/
structure ApiResult where
  outcome : ApiOutcome
  bot : BotState
  saveRequested : Bool
  remoteClearRequested : Bool
deriving DecidableEq, Repr

/-- The `api_chat` route (lines 379-416): strip, validate, clear shortcut,
time shortcut (appends without any trim), otherwise the generation
pipeline. -/
def api_chat (now : Nat) (ev : PipelineEvent) (raw : String) (b : BotState) : ApiResult :=
  let message := pyStrip raw
  if message = "" then
    { outcome := .validationError "Empty message", bot := b
      saveRequested := false, remoteClearRequested := false }
  else if message.length > 1500 then
    { outcome := .validationError "Message too long", bot := b
      saveRequested := false, remoteClearRequested := false }
  else if clearTokens.contains (pyLower message) then
    { outcome := .reply clearReply, bot := clear_history b
      saveRequested := false, remoteClearRequested := true }
  else if apiTimeKeywords.any (fun k => containsSub (pyLower message) k) then
    let reply := timeReplyStr now
    { outcome := .reply reply
      bot := { b with messages := b.messages
        ++ [⟨Role.user, message, now⟩, ⟨Role.assistant, reply, now⟩] }
      saveRequested := true, remoteClearRequested := false }
  else
    let r := get_response_ultra_fast now message ev b
    { outcome := .reply r.reply, bot := r.bot
      saveRequested := r.saveRequested, remoteClearRequested := r.remoteClearRequested }

/-- The `api_history` route: `bot.messages[-30:]`.  The route reads no
request parameter, so a supplied `limit` is ignored. -/
def api_history (lim : Nat) (b : BotState) : List Turn :=
  let _ := lim
  pyNegSlice 30 b.messages

/-- One externally observable operation on the engine state. -/
inductive Op
  | chat (raw : String) (ev : PipelineEvent)
  | save (force : Bool)
  | fill (originalInput : String) (fuller : Option String)
  | preload (data : Option (List Turn))

/-- State transition of one operation at instant `now`. -/
def step (now : Nat) (op : Op) (b : BotState) : BotState :=
  match op with
  | .chat raw ev => (api_chat now ev raw b).bot
  | .save force => (save_history_async now force b).bot
  | .fill orig fuller => background_fill now fuller orig b
  | .preload data => load_history_external data b

/-- Run a timed sequence of operations. -/
def run (ops : List (Nat × Op)) (b : BotState) : BotState :=
  ops.foldl (fun s p => step p.1 p.2 s) b

/-- Freshly constructed bot: empty transcript, `_last_save_time = 0`,
`SAVE_INTERVAL = 3`. -/
def initBot (m : Nat) : BotState :=
  { messages := [], maxMessages := m, lastSaveTime := 0, saveInterval := 3 }

/-- Number of system turns in a transcript. -/
def sysCount (msgs : List Turn) : Nat :=
  (msgs.filter (fun t => t.role == Role.system)).length

/-- Timestamps of the non-system turns, in transcript order. -/
def nonSysTs (msgs : List Turn) : List Nat :=
  (msgs.filter (fun t => t.role != Role.system)).map Turn.timestamp

/-- Whether every preloaded snapshot in an operation sequence contains at
most one system turn. -/
def preloadsOkB (ops : List (Nat × Op)) : Bool :=
  ops.all (fun p =>
    match p.2 with
    | Op.preload (some data) => decide (sysCount data ≤ 1)
    | _ => true)

/-- Whether an operation sequence contains no history preload. -/
def noPreloadB (ops : List (Nat × Op)) : Bool :=
  ops.all (fun p =>
    match p.2 with
    | Op.preload _ => false
    | _ => true)

/-- Whether the operation instants are non-decreasing starting from `prev`
(the engine's wall clock never runs backwards). -/
def timesMonoB : Nat → List (Nat × Op) → Bool
  | _, [] => true
  | prev, p :: rest => decide (prev ≤ p.1) && timesMonoB p.1 rest

open List

/-! ### Lemmas about the slice and filter helpers -/

lemma pyNegSlice_sublist {α : Type} (n : Nat) (l : List α) : (pyNegSlice n l).Sublist l := by
  unfold pyNegSlice
  split
  · exact Sublist.refl l
  · exact drop_sublist _ l

lemma pyNegSlice_suffix {α : Type} (n : Nat) (l : List α) : (pyNegSlice n l).IsSuffix l := by
  unfold pyNegSlice
  split
  · exact suffix_refl l
  · exact drop_suffix _ l

lemma length_pyNegSlice_le {α : Type} {n : Nat} (hn : 0 < n) (l : List α) :
    (pyNegSlice n l).length ≤ n := by
  unfold pyNegSlice
  rw [if_neg (by omega : ¬ n = 0), length_drop]
  omega

lemma length_pyNegSlice_eq {α : Type} {n : Nat} (hn : 0 < n) {l : List α}
    (h : n ≤ l.length) : (pyNegSlice n l).length = n := by
  unfold pyNegSlice
  rw [if_neg (by omega : ¬ n = 0), length_drop]
  omega

lemma mem_pyNegSlice {α : Type} {n : Nat} {l : List α} {x : α}
    (h : x ∈ pyNegSlice n l) : x ∈ l :=
  (pyNegSlice_sublist n l).subset h

lemma sys_of_mem_filter_sys {l : List Turn} {t : Turn}
    (h : t ∈ l.filter (fun t => t.role == Role.system)) : t.role = Role.system := by
  simpa using of_mem_filter h

lemma nonsys_of_mem_filter_nonsys {l : List Turn} {t : Turn}
    (h : t ∈ l.filter (fun t => t.role != Role.system)) : ¬ t.role = Role.system := by
  simpa using of_mem_filter h

lemma filter_sys_filter_nonsys (l : List Turn) :
    (l.filter (fun t => t.role != Role.system)).filter (fun t => t.role == Role.system) = [] := by
  rw [filter_eq_nil_iff]
  intro t ht
  simpa using nonsys_of_mem_filter_nonsys ht

lemma filter_nonsys_filter_sys (l : List Turn) :
    (l.filter (fun t => t.role == Role.system)).filter (fun t => t.role != Role.system) = [] := by
  rw [filter_eq_nil_iff]
  intro t ht
  simpa using sys_of_mem_filter_sys ht

lemma filter_sys_idem (l : List Turn) :
    (l.filter (fun t => t.role == Role.system)).filter (fun t => t.role == Role.system)
      = l.filter (fun t => t.role == Role.system) := by
  rw [filter_eq_self]
  intro t ht
  simpa using sys_of_mem_filter_sys ht

lemma filter_nonsys_idem (l : List Turn) :
    (l.filter (fun t => t.role != Role.system)).filter (fun t => t.role != Role.system)
      = l.filter (fun t => t.role != Role.system) := by
  rw [filter_eq_self]
  intro t ht
  simpa using nonsys_of_mem_filter_nonsys ht

lemma length_filter_sys_add (l : List Turn) :
    (l.filter (fun t => t.role == Role.system)).length
      + (l.filter (fun t => t.role != Role.system)).length = l.length := by
  induction l with
  | nil => rfl
  | cons t l ih =>
      by_cases h : t.role = Role.system <;>
        simp [filter_cons, h] <;> omega

/-! ### Lemmas about `sysCount` and `trim_messages` -/

lemma sysCount_append (l l' : List Turn) : sysCount (l ++ l') = sysCount l + sysCount l' := by
  simp [sysCount, filter_append]

lemma sysCount_nonsys (l : List Turn) :
    sysCount (l.filter (fun t => t.role != Role.system)) = 0 := by
  simp [sysCount, filter_sys_filter_nonsys]

lemma sysCount_le_of_sublist {l l' : List Turn} (h : l.Sublist l') : sysCount l ≤ sysCount l' :=
  (h.filter _).length_le

lemma sysCount_trim (m : Nat) (l : List Turn) :
    sysCount (trim_messages m l) = sysCount l := by
  unfold trim_messages
  split
  · rw [sysCount_append]
    have h2 : sysCount (pyNegSlice (3 * m / 5) (l.filter (fun t => t.role != Role.system))) = 0 := by
      have hle := sysCount_le_of_sublist
        (pyNegSlice_sublist (3 * m / 5) (l.filter (fun t => t.role != Role.system)))
      rw [sysCount_nonsys] at hle
      omega
    have h1 : sysCount (l.filter (fun t => t.role == Role.system)) = sysCount l := by
      simp [sysCount, filter_sys_idem]
    rw [h1, h2]
    omega
  · rfl

lemma mem_trim_subset {m : Nat} {l : List Turn} {t : Turn}
    (h : t ∈ trim_messages m l) : t ∈ l := by
  unfold trim_messages at h
  split at h
  · rcases mem_append.mp h with h' | h'
    · exact mem_of_mem_filter h'
    · exact mem_of_mem_filter (mem_pyNegSlice h')
  · exact h

lemma trim_length_le {m : Nat} (hm : 2 ≤ m) {l : List Turn}
    (hsys : sysCount l ≤ 1) (hl : l.length > m) :
    (trim_messages m l).length ≤ m := by
  unfold trim_messages
  rw [if_pos hl, length_append]
  have h1 : 0 < 3 * m / 5 := by omega
  have h2 := length_pyNegSlice_le h1 (l.filter (fun t => t.role != Role.system))
  have h3 : (l.filter (fun t => t.role == Role.system)).length ≤ 1 := hsys
  omega

/-! ### Lemmas about the append-then-trim step and the system refresh -/

lemma sysCount_appendPair {u a : Turn} (hu : u.role ≠ Role.system) (ha : a.role ≠ Role.system)
    (msgs : List Turn) : sysCount (msgs ++ [u, a]) = sysCount msgs := by
  rw [sysCount_append]
  simp [sysCount, filter_cons, hu, ha]

lemma sysCount_append_user (u : Turn) (hu : u.role ≠ Role.system) (msgs : List Turn) :
    sysCount (msgs ++ [u]) = sysCount msgs := by
  rw [sysCount_append]
  simp [sysCount, filter_cons, hu]

lemma appendPairAndTrim_length_le {m : Nat} (hm : 2 ≤ m) {u a : Turn} {msgs : List Turn}
    (hu : u.role ≠ Role.system) (ha : a.role ≠ Role.system) (hsys : sysCount msgs ≤ 1) :
    (appendPairAndTrim m u a msgs).length ≤ m := by
  unfold appendPairAndTrim
  split
  · by_cases h : (msgs ++ [u, a]).length > m
    · exact trim_length_le hm (by rw [sysCount_appendPair hu ha]; exact hsys) h
    · unfold trim_messages
      rw [if_neg h]
      omega
  · rename_i h
    have h45 : 4 * m / 5 ≤ m := by omega
    omega

lemma sysCount_appendPairAndTrim {m : Nat} {u a : Turn} (hu : u.role ≠ Role.system)
    (ha : a.role ≠ Role.system) (msgs : List Turn) :
    sysCount (appendPairAndTrim m u a msgs) = sysCount msgs := by
  unfold appendPairAndTrim
  split
  · rw [sysCount_trim, sysCount_appendPair hu ha]
  · rw [sysCount_appendPair hu ha]

lemma sysCount_add_system (now : Nat) (msgs : List Turn) :
    sysCount (add_system_with_time now msgs) = 1 := by
  unfold add_system_with_time
  simp [sysCount, filter_cons, filter_sys_filter_nonsys]

lemma sysCount_ensureSystem {now : Nat} {msgs : List Turn} (h : sysCount msgs ≤ 1) :
    sysCount (ensureSystem now msgs) ≤ 1 := by
  unfold ensureSystem
  split
  · rw [sysCount_add_system]
  · exact h

lemma quick_bot_eq_or (now : Nat) (u : String) (b : BotState) :
    (generate_quick_reply now u b).2.1 = b ∨ (generate_quick_reply now u b).2.1 = clear_history b := by
  simp only [generate_quick_reply]
  by_cases h1 : (quickTimeKeywords.any fun k => containsSub (pyLower u) k) = true
  · simp only [if_pos h1]
    exact Or.inl trivial
  · simp only [if_neg h1]
    by_cases h2 : clearTokens.contains (pyStrip (pyLower u)) = true
    · simp only [if_pos h2]
      exact Or.inr trivial
    · simp only [if_neg h2]
      cases hl : lastAssistant b.messages
      · exact Or.inl rfl
      · exact Or.inl rfl

lemma get_response_ok_shape (now : Nat) (u : String) (llm : Option String) (b : BotState) :
    ∃ X : List Turn,
      (get_response_ultra_fast now u (PipelineEvent.ok llm) b).bot.messages
          = appendPairAndTrim b.maxMessages ⟨Role.user, u, now⟩
              ⟨Role.assistant, (get_response_ultra_fast now u (PipelineEvent.ok llm) b).reply, now⟩ X
        ∧ (X = ensureSystem now b.messages ∨ X = []) := by
  unfold get_response_ultra_fast
  cases llm with
  | none =>
      simp only
      rcases quick_bot_eq_or now u { b with messages := ensureSystem now b.messages } with hq | hq
      · exact ⟨ensureSystem now b.messages, by rw [hq], Or.inl rfl⟩
      · exact ⟨[], by rw [hq]; rfl, Or.inr rfl⟩
  | some r =>
      by_cases hc : r ≠ "" ∧ 2 ≤ (pyStrip r).length
      · simp only [if_pos hc]
        exact ⟨ensureSystem now b.messages, rfl, Or.inl rfl⟩
      · simp only [if_neg hc]
        rcases quick_bot_eq_or now u { b with messages := ensureSystem now b.messages } with hq | hq
        · exact ⟨ensureSystem now b.messages, by rw [hq], Or.inl rfl⟩
        · exact ⟨[], by rw [hq]; rfl, Or.inr rfl⟩

lemma get_response_ok_sysCount (now : Nat) (u : String) (llm : Option String) (b : BotState)
    (h : sysCount b.messages ≤ 1) :
    sysCount (get_response_ultra_fast now u (PipelineEvent.ok llm) b).bot.messages ≤ 1 := by
  obtain ⟨X, hmsg, hX⟩ := get_response_ok_shape now u llm b
  rw [hmsg, sysCount_appendPairAndTrim (by simp) (by simp)]
  rcases hX with hX | hX
  · rw [hX]
    exact sysCount_ensureSystem h
  · rw [hX]
    exact Nat.zero_le 1

lemma get_response_ok_length_le (now : Nat) (u : String) (llm : Option String) (b : BotState)
    (hm : 2 ≤ b.maxMessages) (h : sysCount b.messages ≤ 1) :
    (get_response_ultra_fast now u (PipelineEvent.ok llm) b).bot.messages.length ≤ b.maxMessages := by
  obtain ⟨X, hmsg, hX⟩ := get_response_ok_shape now u llm b
  rw [hmsg]
  apply appendPairAndTrim_length_le hm (by simp) (by simp)
  rcases hX with hX | hX
  · rw [hX]
    exact sysCount_ensureSystem h
  · rw [hX]
    exact Nat.zero_le 1

/-! ### Lemmas about `nonSysTs` (chronological order of non-system turns) -/

lemma nonSysTs_append (l l' : List Turn) : nonSysTs (l ++ l') = nonSysTs l ++ nonSysTs l' := by
  simp [nonSysTs, filter_append]

lemma mem_nonSysTs {l : List Turn} {y : Nat} (h : y ∈ nonSysTs l) :
    ∃ t ∈ l, t.timestamp = y := by
  unfold nonSysTs at h
  rcases mem_map.mp h with ⟨t, ht, rfl⟩
  exact ⟨t, mem_of_mem_filter ht, rfl⟩

lemma nonSysTs_add_system (now : Nat) (l : List Turn) :
    nonSysTs (add_system_with_time now l) = nonSysTs l := by
  unfold add_system_with_time nonSysTs
  simp [filter_cons, filter_nonsys_idem]

lemma nonSysTs_ensureSystem (now : Nat) (l : List Turn) :
    nonSysTs (ensureSystem now l) = nonSysTs l := by
  unfold ensureSystem
  split
  · exact nonSysTs_add_system now l
  · rfl

lemma nonSysTs_trim_sublist (m : Nat) (l : List Turn) :
    (nonSysTs (trim_messages m l)).Sublist (nonSysTs l) := by
  unfold trim_messages
  split
  · have h1 : nonSysTs (l.filter (fun t => t.role == Role.system)) = [] := by
      simp [nonSysTs, filter_nonsys_filter_sys]
    have h2 : (pyNegSlice (3 * m / 5) (l.filter (fun t => t.role != Role.system))).filter
        (fun t => t.role != Role.system)
        = pyNegSlice (3 * m / 5) (l.filter (fun t => t.role != Role.system)) := by
      rw [filter_eq_self]
      intro t ht
      simpa using nonsys_of_mem_filter_nonsys (mem_pyNegSlice ht)
    rw [nonSysTs_append, h1]
    simp only [List.nil_append, nonSysTs, h2]
    exact (pyNegSlice_sublist _ _).map Turn.timestamp
  · exact Sublist.refl _

lemma pairwise_nonSysTs_append_one {now : Nat} {l : List Turn} {x : Turn}
    (hx : x.timestamp = now)
    (hpw : List.Pairwise (· ≤ ·) (nonSysTs l)) (hb : ∀ t ∈ l, t.timestamp ≤ now) :
    List.Pairwise (· ≤ ·) (nonSysTs (l ++ [x])) := by
  rw [nonSysTs_append, pairwise_append]
  refine ⟨hpw, ?_, ?_⟩
  · by_cases hxs : x.role = Role.system <;> simp [nonSysTs, filter_cons, hxs]
  · intro a ha y hy
    rcases mem_nonSysTs ha with ⟨t, htl, rfl⟩
    rcases mem_nonSysTs hy with ⟨t', ht', rfl⟩
    have hx' : t' = x := mem_singleton.mp ht'
    rw [hx', hx]
    exact hb t htl

/-! ### Path lemmas for `api_chat` -/

lemma pyLower_length (s : String) : (pyLower s).length = s.length := by
  cases s with
  | mk data => simp [pyLower, String.length]

lemma clear_token_valid {raw : String}
    (h : clearTokens.contains (pyLower (pyStrip raw)) = true) :
    pyStrip raw ≠ "" ∧ (pyStrip raw).length ≤ 1500 := by
  have hmem : pyLower (pyStrip raw) ∈ clearTokens := by simpa using h
  have hlen : (pyStrip raw).length = (pyLower (pyStrip raw)).length := (pyLower_length _).symm
  constructor
  · intro h0
    rw [h0] at hmem
    have hl : pyLower "" = "" := rfl
    rw [hl] at hmem
    exact absurd hmem (by decide)
  · simp only [clearTokens, mem_cons, not_mem_nil, or_false] at hmem
    rcases hmem with h' | h' | h' | h' <;> rw [hlen, h'] <;> decide

lemma api_chat_invalid (now : Nat) (ev : PipelineEvent) (raw : String) (b : BotState)
    (h : pyStrip raw = "" ∨ 1500 < (pyStrip raw).length) :
    api_chat now ev raw b =
      { outcome := .validationError
          (if pyStrip raw = "" then "Empty message" else "Message too long")
        bot := b, saveRequested := false, remoteClearRequested := false } := by
  simp only [api_chat]
  by_cases h0 : pyStrip raw = ""
  · rw [if_pos h0, if_pos h0]
  · rcases h with h | h
    · exact absurd h h0
    · rw [if_neg h0, if_pos h, if_neg h0]

lemma api_chat_clear (now : Nat) (ev : PipelineEvent) (raw : String) (b : BotState)
    (h : clearTokens.contains (pyLower (pyStrip raw)) = true) :
    api_chat now ev raw b =
      { outcome := .reply clearReply, bot := clear_history b
        saveRequested := false, remoteClearRequested := true } := by
  obtain ⟨hne, hlen⟩ := clear_token_valid h
  simp only [api_chat]
  rw [if_neg hne, if_neg (by omega : ¬ (pyStrip raw).length > 1500), if_pos h]

lemma api_chat_time (now : Nat) (ev : PipelineEvent) (raw : String) (b : BotState)
    (hne : pyStrip raw ≠ "") (hlen : (pyStrip raw).length ≤ 1500)
    (hclear : clearTokens.contains (pyLower (pyStrip raw)) = false)
    (htime : (apiTimeKeywords.any fun k => containsSub (pyLower (pyStrip raw)) k) = true) :
    api_chat now ev raw b =
      { outcome := .reply (timeReplyStr now)
        bot := { b with messages := b.messages
          ++ [⟨Role.user, pyStrip raw, now⟩, ⟨Role.assistant, timeReplyStr now, now⟩] }
        saveRequested := true, remoteClearRequested := false } := by
  simp only [api_chat]
  rw [if_neg hne, if_neg (by omega : ¬ (pyStrip raw).length > 1500),
    if_neg (by simp only [hclear]; decide), if_pos htime]

lemma api_chat_generate (now : Nat) (ev : PipelineEvent) (raw : String) (b : BotState)
    (hne : pyStrip raw ≠ "") (hlen : (pyStrip raw).length ≤ 1500)
    (hclear : clearTokens.contains (pyLower (pyStrip raw)) = false)
    (htime : (apiTimeKeywords.any fun k => containsSub (pyLower (pyStrip raw)) k) = false) :
    api_chat now ev raw b =
      { outcome := .reply (get_response_ultra_fast now (pyStrip raw) ev b).reply
        bot := (get_response_ultra_fast now (pyStrip raw) ev b).bot
        saveRequested := (get_response_ultra_fast now (pyStrip raw) ev b).saveRequested
        remoteClearRequested :=
          (get_response_ultra_fast now (pyStrip raw) ev b).remoteClearRequested } := by
  simp only [api_chat]
  rw [if_neg hne, if_neg (by omega : ¬ (pyStrip raw).length > 1500),
    if_neg (by simp only [hclear]; decide), if_neg (by simp only [htime]; decide)]

/-! ### Preservation of the single-system-turn invariant -/

lemma api_chat_sysCount (now : Nat) (ev : PipelineEvent) (raw : String) (b : BotState)
    (h : sysCount b.messages ≤ 1) :
    sysCount (api_chat now ev raw b).bot.messages ≤ 1 := by
  by_cases h0 : pyStrip raw = "" ∨ 1500 < (pyStrip raw).length
  · rw [api_chat_invalid now ev raw b h0]
    exact h
  · push_neg at h0
    by_cases hc : clearTokens.contains (pyLower (pyStrip raw)) = true
    · rw [api_chat_clear now ev raw b hc]
      exact Nat.zero_le 1
    · have hc' : clearTokens.contains (pyLower (pyStrip raw)) = false :=
        Bool.not_eq_true _ ▸ hc
      by_cases ht : (apiTimeKeywords.any fun k => containsSub (pyLower (pyStrip raw)) k) = true
      · rw [api_chat_time now ev raw b h0.1 (by omega) hc' ht]
        show sysCount (b.messages ++ _) ≤ 1
        rw [sysCount_appendPair (by simp) (by simp)]
        exact h
      · have ht' : (apiTimeKeywords.any fun k => containsSub (pyLower (pyStrip raw)) k) = false :=
          Bool.not_eq_true _ ▸ ht
        rw [api_chat_generate now ev raw b h0.1 (by omega) hc' ht']
        cases ev with
        | crash =>
            show sysCount (b.messages ++ [⟨Role.user, pyStrip raw, now⟩]) ≤ 1
            rw [sysCount_append_user _ (by simp)]
            exact h
        | ok llm => exact get_response_ok_sysCount now (pyStrip raw) llm b h

lemma step_sysCount (now : Nat) (op : Op) {b : BotState}
    (hb : sysCount b.messages ≤ 1)
    (hop : ∀ data, op = Op.preload (some data) → sysCount data ≤ 1) :
    sysCount (step now op b).messages ≤ 1 := by
  cases op with
  | chat raw ev => exact api_chat_sysCount now ev raw b hb
  | save force =>
      simp only [step, save_history_async]
      split
      · exact hb
      · split
        · show sysCount (trim_messages b.maxMessages b.messages) ≤ 1
          rw [sysCount_trim]
          exact hb
        · exact hb
  | fill orig fuller =>
      simp only [step, background_fill]
      cases fuller with
      | none => exact hb
      | some f =>
          by_cases hf : f ≠ "" ∧ 1 < (pyStrip f).length
          · simp only [if_pos hf]
            show sysCount (appendPairAndTrim b.maxMessages _ _ b.messages) ≤ 1
            rw [sysCount_appendPairAndTrim (by simp) (by simp)]
            exact hb
          · simp only [if_neg hf]
            exact hb
  | preload data =>
      cases data with
      | none => exact hb
      | some d =>
          simp only [step, load_history_external]
          show sysCount (pyNegSlice b.maxMessages d) ≤ 1
          have h1 := sysCount_le_of_sublist (pyNegSlice_sublist b.maxMessages d)
          have h2 := hop d rfl
          omega

lemma run_sysCount : ∀ (ops : List (Nat × Op)) (b : BotState),
    preloadsOkB ops = true → sysCount b.messages ≤ 1 →
    sysCount (run ops b).messages ≤ 1 := by
  intro ops
  induction ops with
  | nil => intro b _ hb; exact hb
  | cons p rest ih =>
      intro b hp hb
      rw [preloadsOkB, List.all_cons, Bool.and_eq_true] at hp
      have hop : ∀ data, p.2 = Op.preload (some data) → sysCount data ≤ 1 := by
        intro data heq
        have := hp.1
        rw [heq] at this
        exact of_decide_eq_true this
      have hstep := step_sysCount p.1 p.2 hb hop
      exact ih (step p.1 p.2 b) hp.2 hstep

/-! ### Preservation of chronological order of non-system turns -/

lemma chrono_append_one_full {now : Nat} {l : List Turn} {x : Turn}
    (hx : x.timestamp = now)
    (hpw : List.Pairwise (· ≤ ·) (nonSysTs l)) (hb : ∀ t ∈ l, t.timestamp ≤ now) :
    List.Pairwise (· ≤ ·) (nonSysTs (l ++ [x]))
      ∧ ∀ t ∈ l ++ [x], t.timestamp ≤ now := by
  refine ⟨pairwise_nonSysTs_append_one hx hpw hb, ?_⟩
  intro t ht
  rcases mem_append.mp ht with h | h
  · exact hb t h
  · rw [mem_singleton.mp h, hx]

lemma chrono_append_pair {now : Nat} {l : List Turn} {u a : Turn}
    (hu : u.timestamp = now) (ha : a.timestamp = now)
    (hpw : List.Pairwise (· ≤ ·) (nonSysTs l)) (hb : ∀ t ∈ l, t.timestamp ≤ now) :
    List.Pairwise (· ≤ ·) (nonSysTs (l ++ [u, a]))
      ∧ ∀ t ∈ l ++ [u, a], t.timestamp ≤ now := by
  have h1 := chrono_append_one_full hu hpw hb
  have h2 := chrono_append_one_full ha h1.1 h1.2
  have heq : (l ++ [u]) ++ [a] = l ++ [u, a] := by simp
  rw [heq] at h2
  exact h2

lemma chrono_appendPairAndTrim (m now : Nat) (l : List Turn) (u a : Turn)
    (hu : u.timestamp = now) (ha : a.timestamp = now)
    (hpw : List.Pairwise (· ≤ ·) (nonSysTs l)) (hb : ∀ t ∈ l, t.timestamp ≤ now) :
    List.Pairwise (· ≤ ·) (nonSysTs (appendPairAndTrim m u a l))
      ∧ ∀ t ∈ appendPairAndTrim m u a l, t.timestamp ≤ now := by
  obtain ⟨happ, hbapp⟩ := chrono_append_pair hu ha hpw hb
  unfold appendPairAndTrim
  split
  · constructor
    · exact happ.sublist (nonSysTs_trim_sublist m (l ++ [u, a]))
    · intro t ht
      exact hbapp t (mem_trim_subset ht)
  · exact ⟨happ, hbapp⟩

lemma chrono_trim {m now : Nat} {l : List Turn}
    (hpw : List.Pairwise (· ≤ ·) (nonSysTs l)) (hb : ∀ t ∈ l, t.timestamp ≤ now) :
    List.Pairwise (· ≤ ·) (nonSysTs (trim_messages m l))
      ∧ ∀ t ∈ trim_messages m l, t.timestamp ≤ now := by
  constructor
  · exact hpw.sublist (nonSysTs_trim_sublist m l)
  · intro t ht
    exact hb t (mem_trim_subset ht)

lemma mem_ensureSystem {now : Nat} {l : List Turn} {t : Turn}
    (h : t ∈ ensureSystem now l) : t ∈ l ∨ t.timestamp = now := by
  unfold ensureSystem at h
  split at h
  · unfold add_system_with_time at h
    rcases mem_cons.mp h with h | h
    · right
      rw [h]
    · left
      exact mem_of_mem_filter h
  · left
    exact h

lemma api_chat_chrono {prev now : Nat} (ev : PipelineEvent) (raw : String) {b : BotState}
    (hpw : List.Pairwise (· ≤ ·) (nonSysTs b.messages))
    (hbd : ∀ t ∈ b.messages, t.timestamp ≤ prev) (hle : prev ≤ now) :
    List.Pairwise (· ≤ ·) (nonSysTs (api_chat now ev raw b).bot.messages)
      ∧ ∀ t ∈ (api_chat now ev raw b).bot.messages, t.timestamp ≤ now := by
  have hbd' : ∀ t ∈ b.messages, t.timestamp ≤ now := fun t ht => le_trans (hbd t ht) hle
  by_cases h0 : pyStrip raw = "" ∨ 1500 < (pyStrip raw).length
  · rw [api_chat_invalid now ev raw b h0]
    exact ⟨hpw, hbd'⟩
  · push_neg at h0
    by_cases hc : clearTokens.contains (pyLower (pyStrip raw)) = true
    · rw [api_chat_clear now ev raw b hc]
      constructor
      · show List.Pairwise (· ≤ ·) (nonSysTs [])
        simp [nonSysTs]
      · intro t ht
        simp [clear_history] at ht
    · have hc' : clearTokens.contains (pyLower (pyStrip raw)) = false :=
        Bool.not_eq_true _ ▸ hc
      by_cases ht : (apiTimeKeywords.any fun k => containsSub (pyLower (pyStrip raw)) k) = true
      · rw [api_chat_time now ev raw b h0.1 (by omega) hc' ht]
        exact chrono_append_pair rfl rfl hpw hbd'
      · have ht' : (apiTimeKeywords.any fun k => containsSub (pyLower (pyStrip raw)) k) = false :=
          Bool.not_eq_true _ ▸ ht
        rw [api_chat_generate now ev raw b h0.1 (by omega) hc' ht']
        cases ev with
        | crash =>
            exact chrono_append_one_full rfl hpw hbd'
        | ok llm =>
            obtain ⟨X, hmsg, hX⟩ := get_response_ok_shape now (pyStrip raw) llm b
            have hpwX : List.Pairwise (· ≤ ·) (nonSysTs X) := by
              rcases hX with hX | hX <;> rw [hX]
              · rw [nonSysTs_ensureSystem]
                exact hpw
              · show List.Pairwise (· ≤ ·) (nonSysTs [])
                simp [nonSysTs]
            have hbX : ∀ t ∈ X, t.timestamp ≤ now := by
              intro t htX
              rcases hX with hX | hX
              · rw [hX] at htX
                rcases mem_ensureSystem htX with h | h
                · exact hbd' t h
                · omega
              · rw [hX] at htX
                simp at htX
            constructor
            · show List.Pairwise (· ≤ ·)
                (nonSysTs (get_response_ultra_fast now (pyStrip raw) (PipelineEvent.ok llm) b).bot.messages)
              rw [hmsg]
              exact (chrono_appendPairAndTrim b.maxMessages now X
                ⟨Role.user, pyStrip raw, now⟩
                ⟨Role.assistant,
                  (get_response_ultra_fast now (pyStrip raw) (PipelineEvent.ok llm) b).reply, now⟩
                rfl rfl hpwX hbX).1
            · show ∀ t ∈ (get_response_ultra_fast now (pyStrip raw) (PipelineEvent.ok llm) b).bot.messages,
                t.timestamp ≤ now
              rw [hmsg]
              exact (chrono_appendPairAndTrim b.maxMessages now X
                ⟨Role.user, pyStrip raw, now⟩
                ⟨Role.assistant,
                  (get_response_ultra_fast now (pyStrip raw) (PipelineEvent.ok llm) b).reply, now⟩
                rfl rfl hpwX hbX).2

lemma step_chrono (prev now : Nat) (op : Op) {b : BotState}
    (hpw : List.Pairwise (· ≤ ·) (nonSysTs b.messages))
    (hbd : ∀ t ∈ b.messages, t.timestamp ≤ prev) (hle : prev ≤ now)
    (hop : ∀ d, op ≠ Op.preload d) :
    List.Pairwise (· ≤ ·) (nonSysTs (step now op b).messages)
      ∧ ∀ t ∈ (step now op b).messages, t.timestamp ≤ now := by
  have hbd' : ∀ t ∈ b.messages, t.timestamp ≤ now := fun t ht => le_trans (hbd t ht) hle
  cases op with
  | chat raw ev => exact api_chat_chrono ev raw hpw hbd hle
  | save force =>
      simp only [step, save_history_async]
      split
      · exact ⟨hpw, hbd'⟩
      · split
        · exact chrono_trim hpw hbd'
        · exact ⟨hpw, hbd'⟩
  | fill orig fuller =>
      simp only [step, background_fill]
      cases fuller with
      | none => exact ⟨hpw, hbd'⟩
      | some f =>
          by_cases hf : f ≠ "" ∧ 1 < (pyStrip f).length
          · simp only [if_pos hf]
            exact chrono_appendPairAndTrim b.maxMessages now b.messages
              ⟨Role.user, orig, now⟩ ⟨Role.assistant, pyStrip f, now⟩ rfl rfl hpw hbd'
          · simp only [if_neg hf]
            exact ⟨hpw, hbd'⟩
  | preload data => exact absurd rfl (hop data)

lemma run_chrono : ∀ (ops : List (Nat × Op)) (b : BotState) (prev : Nat),
    timesMonoB prev ops = true → noPreloadB ops = true →
    List.Pairwise (· ≤ ·) (nonSysTs b.messages) →
    (∀ t ∈ b.messages, t.timestamp ≤ prev) →
    List.Pairwise (· ≤ ·) (nonSysTs (run ops b).messages) := by
  intro ops
  induction ops with
  | nil => intro b prev _ _ hpw _; exact hpw
  | cons p rest ih =>
      intro b prev ht hp hpw hbd
      rw [timesMonoB, Bool.and_eq_true] at ht
      rw [noPreloadB, List.all_cons, Bool.and_eq_true] at hp
      have hle : prev ≤ p.1 := of_decide_eq_true ht.1
      have hop : ∀ d, p.2 ≠ Op.preload d := by
        intro d heq
        have := hp.1
        rw [heq] at this
        exact Bool.false_ne_true this
      have hstep := step_chrono prev p.1 p.2 hpw hbd hle hop
      exact ih (step p.1 p.2 b) p.1 ht.2 hp.2 hstep.1 hstep.2

/-! ### Characterization of the retention trim and of the returned reply -/

lemma trim_filter_sys {m : Nat} {l : List Turn} (h : l.length > m) :
    (trim_messages m l).filter (fun t => t.role == Role.system)
      = l.filter (fun t => t.role == Role.system) := by
  unfold trim_messages
  rw [if_pos h, filter_append, filter_sys_idem]
  have hnil : (pyNegSlice (3 * m / 5) (l.filter (fun t => t.role != Role.system))).filter
      (fun t => t.role == Role.system) = [] := by
    rw [filter_eq_nil_iff]
    intro t ht
    simpa using nonsys_of_mem_filter_nonsys (mem_pyNegSlice ht)
  rw [hnil, append_nil]

lemma trim_filter_nonsys {m : Nat} {l : List Turn} (h : l.length > m) :
    (trim_messages m l).filter (fun t => t.role != Role.system)
      = pyNegSlice (3 * m / 5) (l.filter (fun t => t.role != Role.system)) := by
  unfold trim_messages
  rw [if_pos h, filter_append, filter_nonsys_filter_sys, nil_append]
  rw [filter_eq_self]
  intro t ht
  simpa using nonsys_of_mem_filter_nonsys (mem_pyNegSlice ht)

lemma str_length_pos {s : String} (h : 0 < s.length) : s ≠ "" := by
  intro he
  rw [he] at h
  exact absurd h (by decide)

lemma timeReplyStr_ne_empty (now : Nat) : timeReplyStr now ≠ "" := by
  apply str_length_pos
  have h1 : 0 < ("Hiện tại là " : String).length := by decide
  simp only [timeReplyStr, String.length_append]
  omega

lemma quickFromLast_ne_empty (u s : String) : quickFromLast u s ≠ "" := by
  apply str_length_pos
  have h1 : 0 < ("Mình nhận được câu hỏi của bạn: \"" : String).length := by decide
  simp only [quickFromLast, String.length_append]
  omega

lemma defaultQuickReply_ne_empty (u : String) : defaultQuickReply u ≠ "" := by
  apply str_length_pos
  have h1 : 0 < ("Mình đã nhận câu hỏi của bạn: \"" : String).length := by decide
  simp only [defaultQuickReply, String.length_append]
  omega

lemma quick_reply_ne_empty (now : Nat) (u : String) (b : BotState) :
    (generate_quick_reply now u b).1 ≠ "" := by
  simp only [generate_quick_reply]
  by_cases h1 : (quickTimeKeywords.any fun k => containsSub (pyLower u) k) = true
  · simp only [if_pos h1]
    exact timeReplyStr_ne_empty now
  · simp only [if_neg h1]
    by_cases h2 : clearTokens.contains (pyStrip (pyLower u)) = true
    · simp only [if_pos h2]
      decide
    · simp only [if_neg h2]
      cases hl : lastAssistant b.messages
      · exact defaultQuickReply_ne_empty u
      · exact quickFromLast_ne_empty u _

lemma get_response_reply_good (now : Nat) (u r : String) (b : BotState)
    (h2 : 2 ≤ (pyStrip r).length) :
    (get_response_ultra_fast now u (PipelineEvent.ok (some r)) b).reply = pyStrip r := by
  have hr : r ≠ "" := by
    intro he
    rw [he] at h2
    exact absurd h2 (by decide)
  simp only [get_response_ultra_fast, if_pos (show r ≠ "" ∧ 2 ≤ (pyStrip r).length from ⟨hr, h2⟩)]

lemma get_response_reply_fallback_none (now : Nat) (u : String) (b : BotState) :
    (get_response_ultra_fast now u (PipelineEvent.ok none) b).reply
      = (generate_quick_reply now u { b with messages := ensureSystem now b.messages }).1 := rfl

lemma get_response_reply_fallback_some (now : Nat) (u r : String) (b : BotState)
    (h2 : (pyStrip r).length < 2) :
    (get_response_ultra_fast now u (PipelineEvent.ok (some r)) b).reply
      = (generate_quick_reply now u { b with messages := ensureSystem now b.messages }).1 := by
  simp only [get_response_ultra_fast,
    if_neg (show ¬ (r ≠ "" ∧ 2 ≤ (pyStrip r).length) from fun hc => by omega)]

lemma get_response_ok_reply_ne_empty (now : Nat) (u : String) (llm : Option String)
    (b : BotState) :
    (get_response_ultra_fast now u (PipelineEvent.ok llm) b).reply ≠ "" := by
  cases llm with
  | none =>
      rw [get_response_reply_fallback_none]
      exact quick_reply_ne_empty now u _
  | some r =>
      by_cases h2 : 2 ≤ (pyStrip r).length
      · rw [get_response_reply_good now u r b h2]
        apply str_length_pos
        omega
      · rw [get_response_reply_fallback_some now u r b (by omega)]
        exact quick_reply_ne_empty now u _

/-! ### Claim theorems -/

/-- Claim C1, counterexample: the claim "for every sequence of handled user
messages (including messages classified as time queries), the transcript length
is at most `maxMessages` immediately after each `handle()` call returns" fails
on the code: the time-query path of `api_chat` appends the exchange without
ever trimming, so 41 handled time queries (each returning a normal reply)
leave 82 turns in a transcript capped at `maxMessages = 80`. -/
theorem C1_counterexample :
    (run (List.replicate 41 (0, Op.chat "giờ" (PipelineEvent.ok none))) (initBot 80)).messages.length
        = 82
      ∧ (initBot 80).maxMessages = 80
      ∧ 80 < 82
      ∧ (api_chat 0 (PipelineEvent.ok none) "giờ"
            (run (List.replicate 40 (0, Op.chat "giờ" (PipelineEvent.ok none))) (initBot 80))).outcome
          = ApiOutcome.reply (timeReplyStr 0) := by
  decide

/-- Claim C1, amended: for every handled message that passes validation and is
not classified as a time query, processed by the normal pipeline (no internal
exception), the transcript length is at most `maxMessages` immediately after
`handle()` returns, provided `maxMessages ≥ 2` and the transcript held at most
one system turn beforehand.  Time-query messages append their exchange without
any trim and can therefore push the transcript above the cap. -/
theorem C1_theorem (now : Nat) (llm : Option String) (raw : String) (b : BotState)
    (hm : 2 ≤ b.maxMessages) (hsys : sysCount b.messages ≤ 1)
    (hne : pyStrip raw ≠ "") (hlen : (pyStrip raw).length ≤ 1500)
    (htime : (apiTimeKeywords.any fun k => containsSub (pyLower (pyStrip raw)) k) = false) :
    (api_chat now (PipelineEvent.ok llm) raw b).bot.messages.length ≤ b.maxMessages := by
  by_cases hc : clearTokens.contains (pyLower (pyStrip raw)) = true
  · rw [api_chat_clear now (PipelineEvent.ok llm) raw b hc]
    show (List.length ([] : List Turn)) ≤ b.maxMessages
    simp
  · have hc' : clearTokens.contains (pyLower (pyStrip raw)) = false :=
      Bool.not_eq_true _ ▸ hc
    rw [api_chat_generate now (PipelineEvent.ok llm) raw b hne hlen hc' htime]
    exact get_response_ok_length_le now (pyStrip raw) llm b hm hsys

/-- Witness for the amended claim C1 at a concrete input. -/
theorem C1_witness :
    2 ≤ (initBot 80).maxMessages ∧ sysCount (initBot 80).messages ≤ 1
      ∧ (api_chat 0 (PipelineEvent.ok none) "hello" (initBot 80)).bot.messages.length
          ≤ (initBot 80).maxMessages :=
  ⟨by decide, by decide,
    C1_theorem 0 none "hello" (initBot 80) (by decide) (by decide) (by decide) (by decide)
      (by decide)⟩

/-- Claim C2, counterexample: the claim "whenever an append pushes the
transcript length above `0.8 * maxMessages`, the retention trim executes
before the call returns, and when it fires it keeps all system turns plus
exactly the most recent `floor(maxMessages * 0.6)` non-system turns,
discarding the rest" fails on the code: with `maxMessages = 80`, handling one
generate-path message on a 65-turn transcript pushes the length to 68, above
`int(80*0.8) = 64`, yet nothing is discarded — 67 non-system turns remain
instead of `int(80*0.6) = 48`, because `_trim_messages` only modifies the
store above the hard cap. -/
theorem C2_counterexample :
    (api_chat 1 (PipelineEvent.ok none) "hello"
        { messages := List.replicate 65 ⟨Role.user, "x", 0⟩, maxMessages := 80,
          lastSaveTime := 0, saveInterval := 3 }).bot.messages.length = 68
      ∧ 4 * 80 / 5 < 68
      ∧ ((api_chat 1 (PipelineEvent.ok none) "hello"
            { messages := List.replicate 65 ⟨Role.user, "x", 0⟩, maxMessages := 80,
              lastSaveTime := 0, saveInterval := 3 }).bot.messages.filter
              (fun t => t.role != Role.system)).length = 67
      ∧ ¬ (67 : Nat) = 3 * 80 / 5 := by
  decide

/-- Claim C2, amended: generate-path appends run the retention check before
the call returns whenever the appended length exceeds `int(maxMessages*0.8)`,
but the trim discards nothing unless the length also exceeds `maxMessages`;
when it does exceed `maxMessages`, the trim keeps all system turns plus
exactly the most recent `int(maxMessages*0.6)` non-system turns and the
resulting length is at most `maxMessages` (for `maxMessages ≥ 2` and at most
one system turn).  Time-query appends execute no trim at all. -/
theorem C2_theorem (m : Nat) (u a : Turn) (msgs : List Turn) (now : Nat)
    (ev : PipelineEvent) (raw : String) (b : BotState)
    (hm : 2 ≤ m) (hu : u.role ≠ Role.system) (ha : a.role ≠ Role.system)
    (hsys : sysCount msgs ≤ 1)
    (hne : pyStrip raw ≠ "") (hlen : (pyStrip raw).length ≤ 1500)
    (hclear : clearTokens.contains (pyLower (pyStrip raw)) = false)
    (htime : (apiTimeKeywords.any fun k => containsSub (pyLower (pyStrip raw)) k) = true) :
    ((msgs ++ [u, a]).length ≤ m → appendPairAndTrim m u a msgs = msgs ++ [u, a])
      ∧ (m < (msgs ++ [u, a]).length →
          (appendPairAndTrim m u a msgs).filter (fun t => t.role == Role.system)
              = (msgs ++ [u, a]).filter (fun t => t.role == Role.system)
            ∧ (appendPairAndTrim m u a msgs).filter (fun t => t.role != Role.system)
              = pyNegSlice (3 * m / 5) ((msgs ++ [u, a]).filter (fun t => t.role != Role.system))
            ∧ ((appendPairAndTrim m u a msgs).filter (fun t => t.role != Role.system)).length
              = 3 * m / 5
            ∧ (appendPairAndTrim m u a msgs).length ≤ m)
      ∧ (api_chat now ev raw b).bot.messages
          = b.messages ++ [⟨Role.user, pyStrip raw, now⟩, ⟨Role.assistant, timeReplyStr now, now⟩] := by
  refine ⟨?_, ?_, ?_⟩
  · intro hle
    unfold appendPairAndTrim
    split
    · unfold trim_messages
      rw [if_neg (by omega)]
    · rfl
  · intro hgt
    have happ : appendPairAndTrim m u a msgs = trim_messages m (msgs ++ [u, a]) := by
      unfold appendPairAndTrim
      rw [if_pos (by omega : (msgs ++ [u, a]).length > 4 * m / 5)]
    have hsys' : sysCount (msgs ++ [u, a]) ≤ 1 := by
      rw [sysCount_appendPair hu ha]
      exact hsys
    refine ⟨?_, ?_, ?_, ?_⟩
    · rw [happ, trim_filter_sys hgt]
    · rw [happ, trim_filter_nonsys hgt]
    · rw [happ, trim_filter_nonsys hgt]
      apply length_pyNegSlice_eq (by omega)
      have hdec := length_filter_sys_add (msgs ++ [u, a])
      have hs : ((msgs ++ [u, a]).filter (fun t => t.role == Role.system)).length ≤ 1 := hsys'
      omega
    · rw [happ]
      exact trim_length_le hm hsys' hgt
  · rw [api_chat_time now ev raw b hne hlen hclear htime]

/-- Witness for the amended claim C2 at concrete inputs: a trim that actually
fires keeps exactly 48 non-system turns at `maxMessages = 80`, and a handled
time query appends its exchange untrimmed. -/
theorem C2_witness :
    2 ≤ 80 ∧ sysCount (List.replicate 85 (⟨Role.user, "x", 0⟩ : Turn)) ≤ 1
      ∧ ((appendPairAndTrim 80 ⟨Role.user, "u", 9⟩ ⟨Role.assistant, "a", 9⟩
            (List.replicate 85 ⟨Role.user, "x", 0⟩)).filter
            (fun t => t.role != Role.system)).length = 3 * 80 / 5
      ∧ (api_chat 0 (PipelineEvent.ok none) "giờ" (initBot 80)).bot.messages
          = (initBot 80).messages
            ++ [⟨Role.user, pyStrip "giờ", 0⟩, ⟨Role.assistant, timeReplyStr 0, 0⟩] :=
  ⟨by decide, by decide,
    ((C2_theorem 80 ⟨Role.user, "u", 9⟩ ⟨Role.assistant, "a", 9⟩
        (List.replicate 85 ⟨Role.user, "x", 0⟩) 0 (PipelineEvent.ok none) "giờ" (initBot 80)
        (by decide) (by decide) (by decide) (by decide) (by decide) (by decide) (by decide)
        (by decide)).2.1 (by decide)).2.2.1,
    (C2_theorem 80 ⟨Role.user, "u", 9⟩ ⟨Role.assistant, "a", 9⟩
        (List.replicate 85 ⟨Role.user, "x", 0⟩) 0 (PipelineEvent.ok none) "giờ" (initBot 80)
        (by decide) (by decide) (by decide) (by decide) (by decide) (by decide) (by decide)
        (by decide)).2.2⟩

/-- Claim C3: for every message whose text, case-insensitively trimmed, equals
one of the reserved clear tokens, `handle()` wipes the Message Store, requests
the best-effort persistence clear, and returns the fixed confirmation reply;
the result is identical for every backend outcome (the Generation Pipeline is
never invoked, even when every backend fails), and subsequent history is
empty. -/
theorem C3_theorem (now : Nat) (ev : PipelineEvent) (raw : String) (b : BotState) (lim : Nat)
    (h : clearTokens.contains (pyLower (pyStrip raw)) = true) :
    (api_chat now ev raw b).outcome = ApiOutcome.reply clearReply
      ∧ (api_chat now ev raw b).bot.messages = []
      ∧ (api_chat now ev raw b).remoteClearRequested = true
      ∧ api_history lim (api_chat now ev raw b).bot = []
      ∧ ∀ ev', api_chat now ev' raw b = api_chat now ev raw b := by
  have he := api_chat_clear now ev raw b h
  refine ⟨by rw [he], by rw [he]; rfl, by rw [he], by rw [he]; rfl, ?_⟩
  intro ev'
  rw [api_chat_clear now ev' raw b h, he]

/-- Witness for claim C3 at the concrete input `" Clear "`. -/
theorem C3_witness :
    clearTokens.contains (pyLower (pyStrip " Clear ")) = true
      ∧ (api_chat 7 (PipelineEvent.ok none) " Clear " (initBot 80)).bot.messages = []
      ∧ (api_chat 7 (PipelineEvent.ok none) " Clear " (initBot 80)).outcome
          = ApiOutcome.reply clearReply :=
  ⟨by decide,
    (C3_theorem 7 (PipelineEvent.ok none) " Clear " (initBot 80) 5 (by decide)).2.1,
    (C3_theorem 7 (PipelineEvent.ok none) " Clear " (initBot 80) 5 (by decide)).1⟩

/-- Claim C4: on the generation path, a backend reply is used (stripped) as the
returned reply exactly when it is non-empty with at least 2 characters after
trimming; when the backend yields nothing acceptable (failure, timeout, or a
too-short reply), `handle()` returns the locally computed quick reply of
`_generate_quick_reply`, and in every case the caller receives a non-empty
reply. -/
theorem C4_theorem (now : Nat) (llm : Option String) (raw : String) (b : BotState)
    (hne : pyStrip raw ≠ "") (hlen : (pyStrip raw).length ≤ 1500)
    (hclear : clearTokens.contains (pyLower (pyStrip raw)) = false)
    (htime : (apiTimeKeywords.any fun k => containsSub (pyLower (pyStrip raw)) k) = false) :
    (∀ r, llm = some r → 2 ≤ (pyStrip r).length →
        (api_chat now (PipelineEvent.ok llm) raw b).outcome = ApiOutcome.reply (pyStrip r))
      ∧ (∀ r, llm = some r → (pyStrip r).length < 2 →
          (api_chat now (PipelineEvent.ok llm) raw b).outcome
            = ApiOutcome.reply ((generate_quick_reply now (pyStrip raw)
                { b with messages := ensureSystem now b.messages }).1))
      ∧ (llm = none →
          (api_chat now (PipelineEvent.ok llm) raw b).outcome
            = ApiOutcome.reply ((generate_quick_reply now (pyStrip raw)
                { b with messages := ensureSystem now b.messages }).1))
      ∧ ∀ s, (api_chat now (PipelineEvent.ok llm) raw b).outcome = ApiOutcome.reply s →
          s ≠ "" := by
  have he := api_chat_generate now (PipelineEvent.ok llm) raw b hne hlen hclear htime
  refine ⟨?_, ?_, ?_, ?_⟩
  · intro r hr h2
    subst hr
    rw [he, get_response_reply_good now (pyStrip raw) r b h2]
  · intro r hr h2
    subst hr
    rw [he, get_response_reply_fallback_some now (pyStrip raw) r b h2]
  · intro hr
    subst hr
    rw [he, get_response_reply_fallback_none]
  · intro s hs
    rw [he] at hs
    have : s = (get_response_ultra_fast now (pyStrip raw) (PipelineEvent.ok llm) b).reply := by
      cases hs
      rfl
    rw [this]
    exact get_response_ok_reply_ne_empty now (pyStrip raw) llm b

/-- Witness for claim C4 at concrete inputs: an acceptable backend reply wins
and is stripped; a failing backend yields the local fallback. -/
theorem C4_witness :
    pyStrip "hello" ≠ ""
      ∧ (api_chat 0 (PipelineEvent.ok (some " chào bạn ")) "hello" (initBot 80)).outcome
          = ApiOutcome.reply (pyStrip " chào bạn ")
      ∧ (api_chat 0 (PipelineEvent.ok none) "hello" (initBot 80)).outcome
          = ApiOutcome.reply ((generate_quick_reply 0 (pyStrip "hello")
              { initBot 80 with messages := ensureSystem 0 (initBot 80).messages }).1) :=
  ⟨by decide,
    (C4_theorem 0 (some " chào bạn ") "hello" (initBot 80) (by decide) (by decide) (by decide)
        (by decide)).1 " chào bạn " rfl (by decide),
    (C4_theorem 0 none "hello" (initBot 80) (by decide) (by decide) (by decide)
        (by decide)).2.2.1 rfl⟩

/-- Claim C5: when the pipeline raises an unexpected internal exception,
`handle()` still returns (never raises): the caller receives the generic
"system busy" reply, the user turn alone is recorded (the set of assistant
turns is unchanged, so no paired assistant turn is appended), and a
best-effort persistence save is triggered. -/
theorem C5_theorem (now : Nat) (userInput : String) (b : BotState) :
    (get_response_ultra_fast now userInput PipelineEvent.crash b).reply = busyReply
      ∧ (get_response_ultra_fast now userInput PipelineEvent.crash b).bot.messages
          = b.messages ++ [⟨Role.user, userInput, now⟩]
      ∧ (get_response_ultra_fast now userInput PipelineEvent.crash b).bot.messages.filter
            (fun t => t.role == Role.assistant)
          = b.messages.filter (fun t => t.role == Role.assistant)
      ∧ (get_response_ultra_fast now userInput PipelineEvent.crash b).saveRequested = true := by
  refine ⟨rfl, rfl, ?_, rfl⟩
  show (b.messages ++ [(⟨Role.user, userInput, now⟩ : Turn)]).filter
        (fun t => t.role == Role.assistant)
      = b.messages.filter (fun t => t.role == Role.assistant)
  rw [filter_append]
  simp [filter_cons]

/-- Claim C6: an input that is empty after trimming or longer than the maximum
length is rejected with a distinct validation error (never a reply), the bot
state is unchanged, and the result does not depend on the backend outcome
(the pipeline is never entered). -/
theorem C6_theorem (now : Nat) (ev : PipelineEvent) (raw : String) (b : BotState)
    (h : pyStrip raw = "" ∨ 1500 < (pyStrip raw).length) :
    ((api_chat now ev raw b).outcome = ApiOutcome.validationError "Empty message"
        ∨ (api_chat now ev raw b).outcome = ApiOutcome.validationError "Message too long")
      ∧ (api_chat now ev raw b).bot = b
      ∧ (∀ s, (api_chat now ev raw b).outcome ≠ ApiOutcome.reply s)
      ∧ ∀ ev', api_chat now ev' raw b = api_chat now ev raw b := by
  have he := api_chat_invalid now ev raw b h
  refine ⟨?_, by rw [he], ?_, ?_⟩
  · rw [he]
    by_cases h0 : pyStrip raw = ""
    · left
      rw [if_pos h0]
    · right
      rw [if_neg h0]
  · intro s hs
    rw [he] at hs
    by_cases h0 : pyStrip raw = ""
    · rw [if_pos h0] at hs
      exact ApiOutcome.noConfusion hs
    · rw [if_neg h0] at hs
      exact ApiOutcome.noConfusion hs
  · intro ev'
    rw [api_chat_invalid now ev' raw b h, he]

/-- Witness for claim C6 at the concrete inputs `"   "` (empty after trimming)
and a reply-independence check. -/
theorem C6_witness :
    (pyStrip "   " = "" ∨ 1500 < (pyStrip "   ").length)
      ∧ (api_chat 0 (PipelineEvent.ok none) "   " (initBot 80)).bot = initBot 80
      ∧ ((api_chat 0 (PipelineEvent.ok none) "   " (initBot 80)).outcome
            = ApiOutcome.validationError "Empty message"
          ∨ (api_chat 0 (PipelineEvent.ok none) "   " (initBot 80)).outcome
            = ApiOutcome.validationError "Message too long") :=
  ⟨by decide,
    (C6_theorem 0 (PipelineEvent.ok none) "   " (initBot 80) (by decide)).2.1,
    (C6_theorem 0 (PipelineEvent.ok none) "   " (initBot 80) (by decide)).1⟩

/-- Claim C7: a `save_history_async` call with `force = false` made less than
`saveInterval` seconds after the last attempted save is a complete no-op (no
Durable Store write, no state change); a call with `force = true` always
proceeds to the save attempt, regardless of the elapsed time. -/
theorem C7_theorem (now : Nat) (force : Bool) (b : BotState)
    (hclock : b.lastSaveTime ≤ now) :
    ((force = false ∧ now - b.lastSaveTime < b.saveInterval) →
        save_history_async now force b
          = { bot := b, attempted := false, payload := none })
      ∧ (force = true → (save_history_async now force b).attempted = true) := by
  constructor
  · rintro ⟨hf, hd⟩
    subst hf
    rw [save_history_async,
      if_pos (show (!false) = true ∧ now - b.lastSaveTime < b.saveInterval from ⟨by decide, hd⟩)]
  · intro hf
    subst hf
    rw [save_history_async, if_neg (by simp)]

/-- Witness for claim C7 at concrete inputs: a debounced call is a no-op and a
forced call proceeds. -/
theorem C7_witness :
    (initBot 80).lastSaveTime ≤ 1
      ∧ save_history_async 1 false (initBot 80)
          = { bot := initBot 80, attempted := false, payload := none }
      ∧ (save_history_async 100 true (initBot 80)).attempted = true :=
  ⟨by decide,
    (C7_theorem 1 false (initBot 80) (by decide)).1 ⟨rfl, by decide⟩,
    (C7_theorem 100 true (initBot 80) (by decide)).2 rfl⟩

/-- Claim C8, counterexample: the claim "after any sequence of operations
(system-turn refresh, message handling, history preload), the transcript
contains at most one system turn" fails on the code: `_load_history_external`
installs the loaded snapshot verbatim, so preloading a stored snapshot that
contains two system turns leaves two system turns in the transcript. -/
theorem C8_counterexample :
    sysCount (run [(0, Op.preload (some [⟨Role.system, "a", 0⟩, ⟨Role.system, "b", 0⟩]))]
        (initBot 80)).messages = 2
      ∧ ¬ (2 : Nat) ≤ 1 := by
  decide

/-- Claim C8, amended: after any sequence of operations (message handling,
system-turn refresh, saving, background fill, history preload), the transcript
contains at most one system turn, provided every preloaded snapshot itself
contains at most one system turn; preload installs the snapshot verbatim and
is the only operation that can violate the invariant. -/
theorem C8_theorem (m : Nat) (ops : List (Nat × Op)) (h : preloadsOkB ops = true) :
    sysCount (run ops (initBot m)).messages ≤ 1 :=
  run_sysCount ops (initBot m) h (Nat.zero_le 1)

/-- Witness for the amended claim C8 on a concrete operation sequence. -/
theorem C8_witness :
    preloadsOkB [(0, Op.chat "hello" (PipelineEvent.ok none)), (1, Op.save true),
        (2, Op.preload (some [⟨Role.system, "s", 0⟩]))] = true
      ∧ sysCount (run [(0, Op.chat "hello" (PipelineEvent.ok none)), (1, Op.save true),
          (2, Op.preload (some [⟨Role.system, "s", 0⟩]))] (initBot 80)).messages ≤ 1 :=
  ⟨by decide,
    C8_theorem 80 [(0, Op.chat "hello" (PipelineEvent.ok none)), (1, Op.save true),
      (2, Op.preload (some [⟨Role.system, "s", 0⟩]))] (by decide)⟩

/-- Claim C9, counterexample: the claim "turns are stored in strict
chronological append order and the timestamp field is monotonically
non-decreasing from the first stored turn to the last" fails on the code: the
periodic system-turn refresh (`add_system_with_time`) inserts a freshly
stamped system turn at position 0, so after three handled exchanges at
instants 1, 2, 3 the transcript starts with timestamp 3 followed by
timestamp 1. -/
theorem C9_counterexample :
    ((run [(1, Op.chat "hello" (PipelineEvent.ok (some "xin chào"))),
           (2, Op.chat "hello" (PipelineEvent.ok (some "xin chào"))),
           (3, Op.chat "hello" (PipelineEvent.ok (some "xin chào")))]
        (initBot 80)).messages.map Turn.timestamp) = [3, 1, 1, 2, 2, 3, 3]
      ∧ ¬ List.Pairwise (· ≤ ·)
          ((run [(1, Op.chat "hello" (PipelineEvent.ok (some "xin chào"))),
                 (2, Op.chat "hello" (PipelineEvent.ok (some "xin chào"))),
                 (3, Op.chat "hello" (PipelineEvent.ok (some "xin chào")))]
              (initBot 80)).messages.map Turn.timestamp) := by
  constructor
  · decide
  · decide

/-- Claim C9, amended: in every run without a history preload whose operation
instants are non-decreasing, the non-system turns of the transcript appear in
append order with monotonically non-decreasing timestamps; the leading system
turn, when refreshed mid-conversation, can carry a timestamp later than the
turns that follow it, so the monotonicity claim holds only for the non-system
turns. -/
theorem C9_theorem (m : Nat) (ops : List (Nat × Op))
    (hp : noPreloadB ops = true) (ht : timesMonoB 0 ops = true) :
    List.Pairwise (· ≤ ·) (nonSysTs (run ops (initBot m)).messages) :=
  run_chrono ops (initBot m) 0 ht hp (List.Pairwise.nil)
    (fun t h => absurd h (List.not_mem_nil t))

/-- Witness for the amended claim C9 on a concrete operation sequence. -/
theorem C9_witness :
    noPreloadB [(1, Op.chat "hello" (PipelineEvent.ok none)), (2, Op.save false),
        (3, Op.chat "hi" PipelineEvent.crash)] = true
      ∧ timesMonoB 0 [(1, Op.chat "hello" (PipelineEvent.ok none)), (2, Op.save false),
          (3, Op.chat "hi" PipelineEvent.crash)] = true
      ∧ List.Pairwise (· ≤ ·) (nonSysTs (run [(1, Op.chat "hello" (PipelineEvent.ok none)),
          (2, Op.save false), (3, Op.chat "hi" PipelineEvent.crash)] (initBot 80)).messages) :=
  ⟨by decide, by decide,
    C9_theorem 80 [(1, Op.chat "hello" (PipelineEvent.ok none)), (2, Op.save false),
      (3, Op.chat "hi" PipelineEvent.crash)] (by decide) (by decide)⟩

/-- Claim C10: the history operation returns at most the last 30 turns of the
transcript — a suffix of it — regardless of the configured `maxMessages` and
of how many turns the transcript holds, and a supplied limit argument has no
effect on the result. -/
theorem C10_theorem (lim lim' : Nat) (b : BotState) :
    (api_history lim b).length ≤ 30
      ∧ api_history lim b = api_history lim' b
      ∧ (api_history lim b).IsSuffix b.messages :=
  ⟨length_pyNegSlice_le (by decide) b.messages, rfl, pyNegSlice_suffix 30 b.messages⟩
